import Mathlib

/-!
Shallow embedding of the feature-selection layer of LightAutoML
(`lightautoml/pipelines/selection/base.py`): `ImportanceEstimator`,
`SelectionPipeline`, `EmptySelector`, `PredefinedSelector` and
`ComposedSelector`.

Modelling choices:
* Python attribute state is explicit: a selector is a value of type `Selector`
  carrying the fields set in `SelectionPipeline.__init__` that the methods of
  this file ever read or write (`features_pipeline`, `_fit_on_holdout`,
  `ml_algo`, `imp_estimator`, `_selected_features`, `_in_features`,
  `mapped_importances`) plus the dynamic class of the object (`SelKind`).
  Fields that are assigned once in `__init__` and never touched afterwards
  (`tuner`, `_empty_algo`) are omitted: no method of the file reads them
  after construction, so they are constant across every operation modelled
  here.
* Fallible Python code returns `Except SelErr`; the error kind distinguishes
  `assert` failures (with their message), `TypeError`, `IndexError` and
  `NotImplementedError`.
* External collaborators excluded from the spec scope (the train/valid
  iterator transformations, `tune_and_fit_predict`, the concrete importance
  estimator fit, `map_pipeline_names`) are a record `Externals` of abstract
  functions; theorems quantify over it.
* Importance scores (Python floats) are modelled as rationals.
-/

/-- Importance score table: association list from feature name to score
(a `pandas.Series` in the source, in order). -/
abbrev Importances := List (String × ℚ)

/-- Feature role metadata: only the `force_input` flag matters to this layer. -/
structure Role where
  force_input : Bool
deriving DecidableEq, Repr

/-- `LAMLDataset`: an ordered feature-name axis plus per-feature roles. -/
structure LAMLDataset where
  features : List String
  roles : String → Role

/-- `dataset[:, cols]`: projection onto an ordered list of feature names,
roles carried over. -/
def LAMLDataset.slice (d : LAMLDataset) (cols : List String) : LAMLDataset :=
  ⟨cols, d.roles⟩

/-- Python-level errors surfaced by this layer. -/
inductive SelErr where
  | assertionError (msg : String)
  | typeError (msg : String)
  | indexError
  | notImplementedError
deriving DecidableEq, Repr

/-- `TrainValidIterator`: of its interface this layer only reads `features`. -/
structure TVIterator where
  features : List String
deriving DecidableEq, Repr

/-- `MLAlgo`: of its interface this layer only reads `is_fitted` and
`features`. -/
structure MLAlgo where
  is_fitted : Bool
  features : List String
deriving DecidableEq, Repr

/-- `ImportanceEstimator`: holds a raw importance table once fit. -/
structure ImportanceEstimator where
  raw_importances : Option Importances
deriving DecidableEq, Repr

/-- External collaborator contracts consumed by the selection layer
(train/valid iterator methods, tuning/fitting, estimator fitting, and the
name-mapping utility), abstracted as functions. A features pipeline is an
opaque identifier interpreted by `apply_feature_pipeline`. -/
structure Externals where
  convert_to_holdout_iterator : TVIterator → TVIterator
  apply_feature_pipeline : Nat → TVIterator → TVIterator
  tune_and_fit_predict : MLAlgo → TVIterator → MLAlgo × Nat
  importance_fit : ImportanceEstimator → TVIterator → Option MLAlgo → Option Nat → ImportanceEstimator
  map_pipeline_names : List String → List String → List String

mutual

/-- Dynamic class of a selector object: the abstract base class, or one of the
three concrete subclasses with the extra state its `__init__` stores. -/
inductive SelKind : Type where
  | base : SelKind
  | empty : SelKind
  | predefined (columns_to_select : List String) : SelKind
  | composed (selectors : SelList) : SelKind

/-- A `SelectionPipeline` object: the mutable attributes, then the dynamic
class. -/
inductive Selector : Type where
  | mk (features_pipeline : Option Nat) (fit_on_holdout : Bool)
      (ml_algo : Option MLAlgo) (imp_estimator : Option ImportanceEstimator)
      (selected : Option (List String)) (inp : Option (List String))
      (mapped : Option Importances) (kind : SelKind) : Selector

/-- A sequence of selectors (the `selectors` attribute of
`ComposedSelector`). -/
inductive SelList : Type where
  | nil : SelList
  | cons (head : Selector) (tail : SelList) : SelList

end

namespace Selector

/-- Attribute `features_pipeline`. -/
def features_pipeline : Selector → Option Nat
  | .mk fp _ _ _ _ _ _ _ => fp

/-- Attribute `_fit_on_holdout`. -/
def _fit_on_holdout : Selector → Bool
  | .mk _ fh _ _ _ _ _ _ => fh

/-- Attribute `ml_algo`. -/
def ml_algo : Selector → Option MLAlgo
  | .mk _ _ ma _ _ _ _ _ => ma

/-- Attribute `imp_estimator`. -/
def imp_estimator : Selector → Option ImportanceEstimator
  | .mk _ _ _ ie _ _ _ _ => ie

/-- Attribute `_selected_features`. -/
def _selected_features : Selector → Option (List String)
  | .mk _ _ _ _ sf _ _ _ => sf

/-- Attribute `_in_features`. -/
def _in_features : Selector → Option (List String)
  | .mk _ _ _ _ _ inf _ _ => inf

/-- Attribute `mapped_importances`. -/
def mapped_importances : Selector → Option Importances
  | .mk _ _ _ _ _ _ mi _ => mi

/-- Dynamic class of the object. -/
def kind : Selector → SelKind
  | .mk _ _ _ _ _ _ _ k => k

/-- Assignment `self.ml_algo = v`. -/
def with_ml_algo : Selector → Option MLAlgo → Selector
  | .mk fp fh _ ie sf inf mi k, v => .mk fp fh v ie sf inf mi k

/-- Assignment to `self.imp_estimator` (its in-place `fit`). -/
def with_imp_estimator : Selector → Option ImportanceEstimator → Selector
  | .mk fp fh ma _ sf inf mi k, v => .mk fp fh ma v sf inf mi k

/-- Assignment `self._selected_features = v`. -/
def with_selected_features : Selector → Option (List String) → Selector
  | .mk fp fh ma ie _ inf mi k, v => .mk fp fh ma ie v inf mi k

/-- Assignment `self._in_features = v`. -/
def with_in_features : Selector → Option (List String) → Selector
  | .mk fp fh ma ie sf _ mi k, v => .mk fp fh ma ie sf v mi k

/-- Assignment `self.mapped_importances = v`. -/
def with_mapped_importances : Selector → Option Importances → Selector
  | .mk fp fh ma ie sf inf _ k, v => .mk fp fh ma ie sf inf v k

/-- Property `is_fitted`: `self._selected_features is not None`. -/
def is_fitted (s : Selector) : Bool :=
  s._selected_features.isSome

/-- Property `selected_features`: asserts fitted, then returns the list. -/
def selected_features (s : Selector) : Except SelErr (List String) :=
  match s._selected_features with
  | some fs => .ok fs
  | none => .error (.assertionError "Should be fitted first")

/-- Property `in_features`: asserts fitted, then returns the list. -/
def in_features (s : Selector) : Except SelErr (List String) :=
  match s._in_features with
  | some fs => .ok fs
  | none => .error (.assertionError "Should be fitted first")

/-- Property `dropped_features`: `set(self._selected_features)` raises a
`TypeError` when `_selected_features` is `None` (no fitted-state assert), and
iterating `self._in_features` raises a `TypeError` when it is `None`;
otherwise the comprehension keeps `_in_features` order. -/
def dropped_features (s : Selector) : Except SelErr (List String) :=
  match s._selected_features with
  | none => .error (.typeError "NoneType object is not iterable")
  | some included =>
    match s._in_features with
    | none => .error (.typeError "NoneType object is not iterable")
    | some inf => .ok (inf.filter (fun x => decide (x ∉ included)))

/-- Method `select(dataset)`. The source builds the local list
`selected_features` (a copy of the property plus force-input columns of the
dataset not already kept, appended in dataset order) but then returns
`dataset[:, self.selected_features]` — the attribute, not the local — so the
force-input additions are discarded. The dead local computation is kept here
as `_selected_features_with_forced` to mirror the source faithfully. -/
def select (s : Selector) (dataset : LAMLDataset) : Except SelErr LAMLDataset :=
  Except.bind s.selected_features (fun selected_features =>
    let sl_set := selected_features
    let roles := dataset.roles
    let _selected_features_with_forced :=
      (dataset.features.filter (fun x => decide (x ∉ sl_set))).foldl
        (fun acc col =>
          if (roles col).force_input then
            (if decide (col ∉ sl_set) then acc ++ [col] else acc)
          else acc)
        selected_features
    Except.bind s.selected_features (fun sf => Except.ok (dataset.slice sf)))

end Selector

namespace SelList

/-- `selectors[0]`, as an option (`none` models the `IndexError`). -/
def head? : SelList → Option Selector
  | .nil => none
  | .cons c _ => some c

/-- `selectors[-1]`, as an option (`none` models the `IndexError`). -/
def getLast? : SelList → Option Selector
  | .nil => none
  | .cons c .nil => some c
  | .cons _ (.cons c rest) => getLast? (.cons c rest)

end SelList

/-- Total order used by `sort_values(ascending=False)`: scores descending. -/
def score_ge (a b : String × ℚ) : Prop := b.2 ≤ a.2

instance : DecidableRel score_ge := fun a b =>
  inferInstanceAs (Decidable (b.2 ≤ a.2))

instance : IsTotal (String × ℚ) score_ge :=
  ⟨fun a b => le_total b.2 a.2⟩

instance : IsTrans (String × ℚ) score_ge :=
  ⟨fun _ _ _ h1 h2 => le_trans h2 h1⟩

/-- `Series.groupby(level=0).sum()`: one entry per distinct key, the value
being the sum of the values of the entries carrying that key. -/
def groupby_sum (l : Importances) : Importances :=
  (l.map Prod.fst).dedup.map
    (fun k => (k, ((l.filter (fun p => decide (p.1 = k))).map Prod.snd).sum))

/-- `Series.sort_values(ascending=False)`: sort by score, largest first (tie
order is unspecified in the source; insertion sort is one realisation). -/
def sort_values_desc (l : Importances) : Importances :=
  List.insertionSort score_ge l

namespace Selector

/-- Method `map_raw_feature_importances(raw_importances)`: maps output names
back through `map_pipeline_names`, regroups by mapped (input) name summing
scores, sorts descending and stores the result. -/
def map_raw_feature_importances (E : Externals) (s : Selector)
    (raw_importances : Importances) : Except SelErr Selector :=
  Except.bind s.in_features (fun inf =>
    let mapped := E.map_pipeline_names inf (raw_importances.map Prod.fst)
    let mapped_importance := mapped.zip (raw_importances.map Prod.snd)
    Except.ok (s.with_mapped_importances
      (some (sort_values_desc (groupby_sum mapped_importance)))))

/-- Method `get_features_score()`: the base class returns
`self.mapped_importances`; `ComposedSelector` overrides it to return
`self.selectors[-1].mapped_importances`. -/
def get_features_score (s : Selector) : Except SelErr (Option Importances) :=
  match s.kind with
  | .composed cs =>
    match cs.getLast? with
    | none => .error .indexError
    | some c => .ok c.mapped_importances
  | _ => .ok s.mapped_importances

/-- Method `perform_selection(train_valid)` of each class: the base class
raises `NotImplementedError`; `EmptySelector` keeps every feature;
`PredefinedSelector` asserts its configured column set is contained in the
iterator features and selects it; `ComposedSelector` takes the last child's
`selected_features` (property access: asserts that child is fitted). -/
def perform_selection (s : Selector) (tv : TVIterator) :
    Except SelErr (List String) :=
  match s.kind with
  | .base => .error .notImplementedError
  | .empty => .ok tv.features
  | .predefined columns_to_select =>
    if columns_to_select.length =
        (columns_to_select.filter (fun c => decide (c ∈ tv.features))).length
    then .ok columns_to_select
    else .error (.assertionError "Columns to select not match with dataset features")
  | .composed cs =>
    match cs.getLast? with
    | none => .error .indexError
    | some c => c.selected_features

/-- The iterator after the optional `convert_to_holdout_iterator` step of
`fit`. -/
def iter_holdout (E : Externals) (s : Selector) (tv : TVIterator) : TVIterator :=
  if s._fit_on_holdout then E.convert_to_holdout_iterator tv else tv

/-- The iterator after the optional holdout conversion and the optional
`apply_feature_pipeline` step of `fit`. -/
def iter_after_pipeline (E : Externals) (s : Selector) (tv : TVIterator) :
    TVIterator :=
  match s.features_pipeline with
  | some p => E.apply_feature_pipeline p (s.iter_holdout E tv)
  | none => s.iter_holdout E tv

end Selector

/-- `SelectionPipeline.fit(train_valid)`: a no-op when already fitted;
otherwise holdout conversion, `_in_features` snapshot, feature pipeline,
model check-or-fit, estimator fit, then `perform_selection`. -/
def SelectionPipeline.fit (E : Externals) (s : Selector) (tv : TVIterator) :
    Except SelErr Selector :=
  if s.is_fitted then .ok s
  else
    let s1 := s.with_in_features (some (s.iter_holdout E tv).features)
    let tv2 := s.iter_after_pipeline E tv
    let mlstep : Except SelErr (Selector × Option Nat) :=
      match s1.ml_algo with
      | none => .ok (s1, none)
      | some algo =>
        if algo.is_fitted then
          if algo.features = tv2.features then .ok (s1, none)
          else .error (.assertionError "Features in feated MLAlgo should match exactly")
        else
          .ok (s1.with_ml_algo (some (E.tune_and_fit_predict algo tv2).1),
            some (E.tune_and_fit_predict algo tv2).2)
    Except.bind mlstep (fun ap =>
      let s3 :=
        match ap.1.imp_estimator with
        | none => ap.1
        | some est =>
          ap.1.with_imp_estimator (some (E.importance_fit est tv2 ap.1.ml_algo ap.2))
      Except.bind (s3.perform_selection tv2)
        (fun sel => Except.ok (s3.with_selected_features (some sel))))

mutual

/-- Dynamic dispatch of `fit`: `ComposedSelector` overrides it (no fitted
guard; applies every child to the iterator in turn, sets `_in_features` from
`self.selectors[0]`, then `perform_selection`); every other class uses
`SelectionPipeline.fit`. -/
def Selector.fit (E : Externals) (s : Selector) (tv : TVIterator) :
    Except SelErr Selector :=
  match s with
  | .mk fp fh ma ie sf inf mi (.composed cs) =>
    Except.bind (SelList.apply_all E cs tv) (fun r =>
      match SelList.head? r.1 with
      | none => Except.error .indexError
      | some c0 =>
        Except.bind c0.in_features (fun inf0 =>
          let s1 := (Selector.mk fp fh ma ie sf inf mi
            (.composed r.1)).with_in_features (some inf0)
          Except.bind (s1.perform_selection r.2)
            (fun sel => Except.ok (s1.with_selected_features (some sel)))))
  | s => SelectionPipeline.fit E s tv

/-- Modelled from the spec: `TrainValidIterator.apply_selector` (defined in
`lightautoml/validation/base.py`, not under `src/`) — "ask the iterator to
apply that selector — this fits the child selector against the iterator if
not already fit, and returns a new iterator restricted to that child's
selected features" — folded over the whole child sequence, threading the
iterator and collecting the (fitted, in place in Python) children. -/
def SelList.apply_all (E : Externals) (cs : SelList) (tv : TVIterator) :
    Except SelErr (SelList × TVIterator) :=
  match cs with
  | .nil => .ok (.nil, tv)
  | .cons c rest =>
    Except.bind (if c.is_fitted then Except.ok c else Selector.fit E c tv)
      (fun c2 =>
        Except.bind c2.selected_features (fun sel =>
          Except.bind (SelList.apply_all E rest ⟨sel⟩)
            (fun r => Except.ok (.cons c2 r.1, r.2))))

end

/-- `SelectionPipeline.__init__` with every argument left at its default. -/
def SelectionPipeline.new : Selector :=
  .mk none false none none none none none .base

/-- `EmptySelector()`. -/
def EmptySelector.new : Selector :=
  .mk none false none none none none none .empty

/-- `PredefinedSelector(columns_to_select)`: the argument is stored as a
Python `set`, modelled as its deduplicated list. -/
def PredefinedSelector.new (columns_to_select : List String) : Selector :=
  .mk none false none none none none none (.predefined columns_to_select.dedup)

/-- `ComposedSelector(selectors)`. -/
def ComposedSelector.new (selectors : SelList) : Selector :=
  .mk none false none none none none none (.composed selectors)

/-- A trivial instantiation of the external collaborators, used to exercise
the model on concrete inputs. -/
def E0 : Externals :=
  ⟨id, fun _ tv => tv, fun a _ => (a, 0), fun e _ _ _ => e, fun _ outs => outs⟩

/-- Variant of the external collaborators in which every derived output
feature maps back to the single input feature `f` (used to exercise
importance mapping on concrete inputs). -/
def E1 : Externals :=
  ⟨id, fun _ tv => tv, fun a _ => (a, 0), fun e _ _ _ => e,
    fun _ outs => outs.map (fun _ => "f")⟩

/-- Concrete dataset with features `a`, `b`, `c` where only `b` has
`force_input = true`. -/
def dsABC : LAMLDataset := ⟨["a", "b", "c"], fun c => ⟨decide (c = "b")⟩⟩

/-- A fitted selector whose decision kept only feature `a` out of
`a`, `b`, `c`. -/
def selA : Selector :=
  .mk none false none none (some ["a"]) (some ["a", "b", "c"]) none .base

/-- A fitted selector over input feature `f` (used for importance mapping). -/
def selF : Selector :=
  .mk none false none none (some ["f"]) (some ["f"]) none .base

/-- C1: the claim says `select` returns the dataset projected onto
`selected_features` followed by the force-input features not already kept
(here `["a", "b"]`, since `b` has `force_input = true`). The code computes
that augmented list but returns `dataset[:, self.selected_features]`, so the
projection is onto `["a"]` only: the force-input additions are discarded.
This theorem evaluates the embedded code at that failing input. -/
theorem C1_select_discards_forced :
    (Selector.select selA dsABC).map LAMLDataset.features = Except.ok ["a"] ∧
    (Selector.select selA dsABC).map LAMLDataset.features ≠ Except.ok ["a", "b"] := by
  refine ⟨rfl, ?_⟩
  intro h
  rw [show (Selector.select selA dsABC).map LAMLDataset.features = Except.ok ["a"] from rfl]
    at h
  simp at h

/-- C7: for a fitted selector, `dropped_features` is the list of
`in_features` that are not in `selected_features`, in `in_features` order. -/
theorem C7_dropped_features_order (s : Selector) (sel inf : List String)
    (hs : s._selected_features = some sel) (hi : s._in_features = some inf) :
    s.dropped_features = .ok (inf.filter (fun x => decide (x ∉ sel))) := by
  cases s with
  | mk fp fh ma ie sf pinf mi k =>
    simp only [Selector._selected_features] at hs
    simp only [Selector._in_features] at hi
    subst hs; subst hi
    rfl

/-- Witness for C7 at a concrete fitted selector: `in_features`
`["a", "b", "c"]` with `selected_features` `["a"]` drops `["b", "c"]`. -/
theorem C7_dropped_features_order_witness :
    Selector.dropped_features selA = .ok ["b", "c"] := by
  rw [C7_dropped_features_order selA ["a"] ["a", "b", "c"] rfl rfl]
  rfl

/-- C8: on a never-fitted selector (both state fields still `None`), reading
`selected_features` or `in_features`, or calling `select`, fails immediately
with the assertion-style message `Should be fitted first`. -/
theorem C8_unfitted_access_fails (s : Selector) (d : LAMLDataset)
    (hs : s._selected_features = none) (hi : s._in_features = none) :
    s.selected_features = .error (.assertionError "Should be fitted first") ∧
    s.in_features = .error (.assertionError "Should be fitted first") ∧
    s.select d = .error (.assertionError "Should be fitted first") := by
  cases s with
  | mk fp fh ma ie sf pinf mi k =>
    simp only [Selector._selected_features] at hs
    simp only [Selector._in_features] at hi
    subst hs; subst hi
    exact ⟨rfl, rfl, rfl⟩

/-- Witness for C8: a freshly constructed `SelectionPipeline` rejects all
three accesses. -/
theorem C8_unfitted_access_fails_witness :
    Selector.selected_features SelectionPipeline.new =
      .error (.assertionError "Should be fitted first") ∧
    Selector.in_features SelectionPipeline.new =
      .error (.assertionError "Should be fitted first") ∧
    Selector.select SelectionPipeline.new dsABC =
      .error (.assertionError "Should be fitted first") :=
  C8_unfitted_access_fails SelectionPipeline.new dsABC rfl rfl

/-- C9: fitting a `ComposedSelector` built over an empty child sequence
raises (the `IndexError` of `self.selectors[0]`) instead of producing an
unfit or empty selection. -/
theorem C9_empty_composed_fit_raises (E : Externals) (tv : TVIterator) :
    Selector.fit E (ComposedSelector.new SelList.nil) tv =
      .error SelErr.indexError := rfl

/-- C10: accessing `dropped_features` on a never-fitted selector raises, but
it is the `TypeError` of `set(None)`, not the `Should be fitted first`
assertion used by `selected_features` and `in_features`: the property has no
fitted-state guard. -/
theorem C10_dropped_features_unfitted_type_error (s : Selector)
    (h : s._selected_features = none) :
    s.dropped_features = .error (.typeError "NoneType object is not iterable") ∧
    s.dropped_features ≠ .error (.assertionError "Should be fitted first") := by
  cases s with
  | mk fp fh ma ie sf pinf mi k =>
    simp only [Selector._selected_features] at h
    subst h
    refine ⟨rfl, ?_⟩
    intro hcontra
    rw [show Selector.dropped_features (.mk fp fh ma ie none pinf mi k) =
      .error (.typeError "NoneType object is not iterable") from rfl] at hcontra
    simp at hcontra

/-- Witness for C10: a freshly constructed `SelectionPipeline`. -/
theorem C10_dropped_features_unfitted_type_error_witness :
    Selector.dropped_features SelectionPipeline.new =
      .error (.typeError "NoneType object is not iterable") ∧
    Selector.dropped_features SelectionPipeline.new ≠
      .error (.assertionError "Should be fitted first") :=
  C10_dropped_features_unfitted_type_error SelectionPipeline.new rfl

/-- `fit` on a freshly constructed `PredefinedSelector` reduces to the
containment assert of its `perform_selection` (no holdout, pipeline, model or
estimator is configured by its `__init__`). -/
theorem predefined_fit_eq (E : Externals) (cols : List String) (tv : TVIterator) :
    Selector.fit E (PredefinedSelector.new cols) tv =
      if cols.dedup.length =
          (cols.dedup.filter (fun c => decide (c ∈ tv.features))).length
      then .ok (Selector.mk none false none none (some cols.dedup)
        (some tv.features) none (.predefined cols.dedup))
      else .error (.assertionError "Columns to select not match with dataset features") := by
  show Except.bind
      (if cols.dedup.length =
          (cols.dedup.filter (fun c => decide (c ∈ tv.features))).length
        then Except.ok cols.dedup
        else Except.error
          (SelErr.assertionError "Columns to select not match with dataset features"))
      (fun sel => Except.ok (Selector.mk none false none none (some sel)
        (some tv.features) none (.predefined cols.dedup))) = _
  split <;> rfl

/-- The `assert` of `PredefinedSelector.perform_selection` (cardinality of the
column set equals the cardinality of its intersection with the iterator
features) holds exactly when every requested column is an iterator feature. -/
theorem predefined_cond_iff (cols feats : List String) :
    (cols.dedup.length =
      (cols.dedup.filter (fun c => decide (c ∈ feats))).length) ↔
      ∀ c ∈ cols, c ∈ feats := by
  constructor
  · intro h c hc
    have hsub : List.Sublist (cols.dedup.filter (fun c => decide (c ∈ feats))) cols.dedup :=
      List.filter_sublist _
    have heq := hsub.eq_of_length h.symm
    have := List.filter_eq_self.mp heq c (List.mem_dedup.mpr hc)
    simpa using this
  · intro h
    rw [List.filter_eq_self.mpr]
    intro a ha
    simpa using h a (List.mem_dedup.mp ha)

/-- C4: `PredefinedSelector(cols).fit(iter)` succeeds iff the configured
column set is contained in the iterator features; on success the selected
features equal the configured columns as a set; otherwise it fails with the
containment assertion. -/
theorem C4_predefined_fit (E : Externals) (cols : List String) (tv : TVIterator) :
    ((∃ s2, Selector.fit E (PredefinedSelector.new cols) tv = .ok s2) ↔
      ∀ c ∈ cols, c ∈ tv.features) ∧
    (∀ s2, Selector.fit E (PredefinedSelector.new cols) tv = .ok s2 →
      ∃ sel, s2._selected_features = some sel ∧ ∀ x, (x ∈ sel ↔ x ∈ cols)) ∧
    (¬ (∀ c ∈ cols, c ∈ tv.features) →
      Selector.fit E (PredefinedSelector.new cols) tv =
        .error (.assertionError "Columns to select not match with dataset features")) := by
  rw [predefined_fit_eq E cols tv]
  by_cases hc : ∀ c ∈ cols, c ∈ tv.features
  · rw [if_pos ((predefined_cond_iff cols tv.features).mpr hc)]
    refine ⟨⟨fun _ => hc, fun _ => ⟨_, rfl⟩⟩, ?_, fun hn => absurd hc hn⟩
    intro s2 h2
    cases h2
    exact ⟨cols.dedup, rfl, fun x => List.mem_dedup⟩
  · rw [if_neg (fun h => hc ((predefined_cond_iff cols tv.features).mp h))]
    refine ⟨⟨?_, fun h => absurd h hc⟩, ?_, fun _ => rfl⟩
    · rintro ⟨s2, h2⟩
      cases h2
    · intro s2 h2
      cases h2

/-- Witness for C4: requested `{a, b}` against features `[a, b, c]` succeeds;
requested `{a, d}` fails with the containment assertion. -/
theorem C4_predefined_fit_witness :
    (∃ s2, Selector.fit E0 (PredefinedSelector.new ["a", "b"])
      (TVIterator.mk ["a", "b", "c"]) = .ok s2) ∧
    Selector.fit E0 (PredefinedSelector.new ["a", "d"])
      (TVIterator.mk ["a", "b", "c"]) =
      .error (.assertionError "Columns to select not match with dataset features") :=
  ⟨(C4_predefined_fit E0 ["a", "b"] (TVIterator.mk ["a", "b", "c"])).1.mpr
      (by decide),
    (C4_predefined_fit E0 ["a", "d"] (TVIterator.mk ["a", "b", "c"])).2.2
      (by decide)⟩

/-- `Except.bind` on a success applies the continuation. -/
theorem except_bind_ok {α β ε : Type} (x : α) (f : α → Except ε β) :
    Except.bind (Except.ok x) f = f x := rfl

/-- `Except.bind` on an error propagates it. -/
theorem except_bind_error {α β ε : Type} (e : ε) (f : α → Except ε β) :
    Except.bind (Except.error e) f = Except.error e := rfl

/-- Classes whose `fit` is the inherited `SelectionPipeline.fit` (everything
but `ComposedSelector`). -/
def SelKind.not_composed : SelKind → Bool
  | .composed _ => false
  | _ => true

/-- Dynamic dispatch: on a non-composed selector, `fit` is the base-class
`fit`. -/
theorem fit_dispatch_not_composed (E : Externals) (s : Selector) (tv : TVIterator)
    (h : s.kind.not_composed = true) :
    Selector.fit E s tv = SelectionPipeline.fit E s tv := by
  cases s with
  | mk fp fh ma ie sf inf mi k =>
    cases k <;> first
      | rfl
      | simp [Selector.kind, SelKind.not_composed] at h

/-- The body of `SelectionPipeline.fit` on an unfitted selector with a
configured model, reduced to the model branch. -/
theorem base_fit_unfit_ml (E : Externals) (fp : Option Nat) (fh : Bool)
    (a : MLAlgo) (ie : Option ImportanceEstimator) (inf : Option (List String))
    (mi : Option Importances) (k : SelKind) (tv : TVIterator) :
    SelectionPipeline.fit E (.mk fp fh (some a) ie none inf mi k) tv =
      (let s := Selector.mk fp fh (some a) ie none inf mi k
       let s1 := s.with_in_features (some (s.iter_holdout E tv).features)
       let tv2 := s.iter_after_pipeline E tv
       Except.bind
        (if a.is_fitted then
          (if a.features = tv2.features then Except.ok (s1, (none : Option Nat))
           else Except.error
             (SelErr.assertionError "Features in feated MLAlgo should match exactly"))
         else Except.ok (s1.with_ml_algo (some (E.tune_and_fit_predict a tv2).1),
           some (E.tune_and_fit_predict a tv2).2))
        (fun ap =>
          let s3 := match ap.1.imp_estimator with
            | none => ap.1
            | some est =>
              ap.1.with_imp_estimator (some (E.importance_fit est tv2 ap.1.ml_algo ap.2))
          Except.bind (s3.perform_selection tv2)
            (fun sel => Except.ok (s3.with_selected_features (some sel))))) := rfl

/-- C6: during `fit`, when a model is configured and already fit, the
pipeline asserts the model feature list equals the iterator feature list (as
an ordered sequence) and fails on mismatch; tuning and fitting happen only
when the model is not yet fit (then the stored model is the freshly tuned
one, while an already-fit model is kept untouched). -/
theorem C6_ml_algo_contract (E : Externals) (s : Selector) (tv : TVIterator)
    (a : MLAlgo) (hk : s.kind.not_composed = true)
    (hu : s._selected_features = none) (ha : s.ml_algo = some a) :
    (a.is_fitted = true → a.features ≠ (s.iter_after_pipeline E tv).features →
      Selector.fit E s tv =
        .error (.assertionError "Features in feated MLAlgo should match exactly")) ∧
    (∀ s2, Selector.fit E s tv = .ok s2 →
      (a.is_fitted = true →
        s2.ml_algo = some a ∧ a.features = (s.iter_after_pipeline E tv).features) ∧
      (a.is_fitted = false →
        s2.ml_algo = some (E.tune_and_fit_predict a (s.iter_after_pipeline E tv)).1)) := by
  rw [fit_dispatch_not_composed E s tv hk]
  cases s with
  | mk fp fh ma ie sf inf mi k =>
    simp only [Selector._selected_features] at hu
    simp only [Selector.ml_algo] at ha
    subst hu; subst ha
    rw [base_fit_unfit_ml]
    simp only [Selector.with_in_features, Selector.with_ml_algo,
      Selector.imp_estimator, Selector.ml_algo, Selector.with_imp_estimator]
    cases haf : a.is_fitted with
    | true =>
      by_cases hfe : a.features =
          (Selector.iter_after_pipeline E (Selector.mk fp fh (some a) ie none inf mi k) tv).features
      · simp only [if_pos hfe, if_true, except_bind_ok]
        constructor
        · intro _ hne
          exact absurd hfe hne
        · intro s2 h2
          refine ⟨fun _ => ⟨?_, hfe⟩, fun h => absurd h (by simp)⟩
          cases ie with
          | none =>
            rcases hps : Selector.perform_selection
                (Selector.mk fp fh (some a) none none
                  (some ((Selector.iter_holdout E (Selector.mk fp fh (some a) none none inf mi k) tv)).features) mi k)
                (Selector.iter_after_pipeline E (Selector.mk fp fh (some a) none none inf mi k) tv)
              with e | sel
            · rw [hps] at h2
              simp [except_bind_error] at h2
            · rw [hps] at h2
              simp only [except_bind_ok, Except.ok.injEq] at h2
              rw [← h2]
              rfl
          | some est =>
            rcases hps : Selector.perform_selection
                (Selector.mk fp fh (some a) (some (E.importance_fit est
                    (Selector.iter_after_pipeline E (Selector.mk fp fh (some a) (some est) none inf mi k) tv)
                    (some a) none)) none
                  (some ((Selector.iter_holdout E (Selector.mk fp fh (some a) (some est) none inf mi k) tv)).features) mi k)
                (Selector.iter_after_pipeline E (Selector.mk fp fh (some a) (some est) none inf mi k) tv)
              with e | sel
            · rw [hps] at h2
              simp [except_bind_error] at h2
            · rw [hps] at h2
              simp only [except_bind_ok, Except.ok.injEq] at h2
              rw [← h2]
              rfl
      · refine ⟨fun _ _ => ?_, fun s2 h2 => ?_⟩
        · simp [if_neg hfe, except_bind_error]
        · simp [if_neg hfe, except_bind_error] at h2
    | false =>
      simp only [Bool.false_eq_true, if_false, except_bind_ok]
      constructor
      · intro h
        cases h
      · intro s2 h2
        refine ⟨(fun h => by cases h), fun _ => ?_⟩
        cases ie with
        | none =>
          rcases hps : Selector.perform_selection
              (Selector.mk fp fh (some (E.tune_and_fit_predict a
                  (Selector.iter_after_pipeline E (Selector.mk fp fh (some a) none none inf mi k) tv)).1) none none
                (some ((Selector.iter_holdout E (Selector.mk fp fh (some a) none none inf mi k) tv)).features) mi k)
              (Selector.iter_after_pipeline E (Selector.mk fp fh (some a) none none inf mi k) tv)
            with e | sel
          · rw [hps] at h2
            simp [except_bind_error] at h2
          · rw [hps] at h2
            simp only [except_bind_ok, Except.ok.injEq] at h2
            rw [← h2]
            rfl
        | some est =>
          rcases hps : Selector.perform_selection
              (Selector.mk fp fh (some (E.tune_and_fit_predict a
                  (Selector.iter_after_pipeline E (Selector.mk fp fh (some a) (some est) none inf mi k) tv)).1)
                (some (E.importance_fit est
                  (Selector.iter_after_pipeline E (Selector.mk fp fh (some a) (some est) none inf mi k) tv)
                  (some (E.tune_and_fit_predict a
                    (Selector.iter_after_pipeline E (Selector.mk fp fh (some a) (some est) none inf mi k) tv)).1)
                  (some (E.tune_and_fit_predict a
                    (Selector.iter_after_pipeline E (Selector.mk fp fh (some a) (some est) none inf mi k) tv)).2))) none
                (some ((Selector.iter_holdout E (Selector.mk fp fh (some a) (some est) none inf mi k) tv)).features) mi k)
              (Selector.iter_after_pipeline E (Selector.mk fp fh (some a) (some est) none inf mi k) tv)
            with e | sel
          · rw [hps] at h2
            simp [except_bind_error] at h2
          · rw [hps] at h2
            simp only [except_bind_ok, Except.ok.injEq] at h2
            rw [← h2]
            rfl

/-- Witness for C6: an already-fit model recorded on features `[x]` against
an iterator over `[a]` makes `fit` fail with the feature-match assertion. -/
theorem C6_ml_algo_contract_witness :
    Selector.fit E0
      (Selector.mk none false (some (MLAlgo.mk true ["x"])) none none none none .empty)
      (TVIterator.mk ["a"]) =
      .error (.assertionError "Features in feated MLAlgo should match exactly") :=
  (C6_ml_algo_contract E0
    (Selector.mk none false (some (MLAlgo.mk true ["x"])) none none none none .empty)
    (TVIterator.mk ["a"]) (MLAlgo.mk true ["x"]) rfl rfl rfl).1 rfl (by decide)

/-- Inverting a successful `Except.bind`: the first computation succeeded and
the continuation succeeded on its value. -/
theorem except_bind_eq_ok {α β ε : Type} {m : Except ε α} {f : α → Except ε β} {b : β}
    (h : Except.bind m f = .ok b) : ∃ x, m = .ok x ∧ f x = .ok b := by
  cases m with
  | error e => cases h
  | ok x => exact ⟨x, rfl, h⟩

/-- A successful `selected_features` read exposes the underlying attribute. -/
theorem selected_features_ok {s : Selector} {x : List String}
    (h : s.selected_features = .ok x) : s._selected_features = some x := by
  unfold Selector.selected_features at h
  cases hs : s._selected_features with
  | none => rw [hs] at h; cases h
  | some v => rw [hs] at h; cases h; rfl

/-- A successful `in_features` read exposes the underlying attribute. -/
theorem in_features_ok {s : Selector} {x : List String}
    (h : s.in_features = .ok x) : s._in_features = some x := by
  unfold Selector.in_features at h
  cases hs : s._in_features with
  | none => rw [hs] at h; cases h
  | some v => rw [hs] at h; cases h; rfl

/-- A selector whose `selected_features` read succeeds is fitted. -/
theorem is_fitted_of_selected_ok {s : Selector} {x : List String}
    (h : s.selected_features = .ok x) : s.is_fitted = true := by
  unfold Selector.is_fitted
  rw [selected_features_ok h]
  rfl

/-- Setting `_selected_features` to a value makes the selector fitted. -/
theorem is_fitted_with_selected_some (s : Selector) (v : List String) :
    (s.with_selected_features (some v)).is_fitted = true := by
  cases s; rfl

/-- Attribute assignments never change the dynamic class. -/
theorem kind_with_selected_features (s : Selector) (v : Option (List String)) :
    (s.with_selected_features v).kind = s.kind := by cases s; rfl

/-- Attribute assignments never change the dynamic class. -/
theorem kind_with_in_features (s : Selector) (v : Option (List String)) :
    (s.with_in_features v).kind = s.kind := by cases s; rfl

/-- Attribute assignments never change the dynamic class. -/
theorem kind_with_ml_algo (s : Selector) (v : Option MLAlgo) :
    (s.with_ml_algo v).kind = s.kind := by cases s; rfl

/-- Attribute assignments never change the dynamic class. -/
theorem kind_with_imp_estimator (s : Selector) (v : Option ImportanceEstimator) :
    (s.with_imp_estimator v).kind = s.kind := by cases s; rfl

/-- Setting `_in_features` leaves `ml_algo` untouched. -/
theorem ml_algo_with_in_features (s : Selector) (v : Option (List String)) :
    (s.with_in_features v).ml_algo = s.ml_algo := by cases s; rfl

/-- Unfolding of the overridden `ComposedSelector.fit`. -/
theorem composed_fit_eq (E : Externals) (fp : Option Nat) (fh : Bool)
    (ma : Option MLAlgo) (ie : Option ImportanceEstimator)
    (sf inf : Option (List String)) (mi : Option Importances)
    (cs : SelList) (tv : TVIterator) :
    Selector.fit E (.mk fp fh ma ie sf inf mi (.composed cs)) tv =
      Except.bind (SelList.apply_all E cs tv) (fun r =>
        match SelList.head? r.1 with
        | none => Except.error .indexError
        | some c0 =>
          Except.bind c0.in_features (fun inf0 =>
            Except.bind ((Selector.mk fp fh ma ie sf (some inf0) mi
                (.composed r.1)).perform_selection r.2)
              (fun sel => Except.ok (Selector.mk fp fh ma ie (some sel) (some inf0) mi
                (.composed r.1))))) := rfl

/-- Unfolding of `apply_selector` folded over a non-empty child sequence. -/
theorem apply_all_cons (E : Externals) (c : Selector) (rest : SelList)
    (tv : TVIterator) :
    SelList.apply_all E (.cons c rest) tv =
      Except.bind (if c.is_fitted then Except.ok c else Selector.fit E c tv)
        (fun c2 =>
          Except.bind c2.selected_features (fun sel =>
            Except.bind (SelList.apply_all E rest ⟨sel⟩)
              (fun r => Except.ok (.cons c2 r.1, r.2)))) := rfl

/-- A successful `SelectionPipeline.fit` leaves the selector fitted, keeps its
dynamic class, and is the identity when the selector was already fitted. -/
theorem base_fit_ok_shape (E : Externals) (s s2 : Selector) (tv : TVIterator)
    (h : SelectionPipeline.fit E s tv = .ok s2) :
    s2.is_fitted = true ∧ s2.kind = s.kind ∧ (s.is_fitted = true → s2 = s) := by
  unfold SelectionPipeline.fit at h
  by_cases hf : s.is_fitted = true
  · rw [if_pos hf] at h
    cases h
    exact ⟨hf, rfl, fun _ => rfl⟩
  · rw [if_neg hf] at h
    obtain ⟨ap, hM, h1⟩ := except_bind_eq_ok h
    obtain ⟨sel, hps, h2⟩ := except_bind_eq_ok h1
    cases h2
    refine ⟨is_fitted_with_selected_some _ _, ?_, fun hft => absurd hft hf⟩
    rw [kind_with_selected_features]
    have hk1 : ap.1.kind = s.kind := by
      rw [ml_algo_with_in_features] at hM
      rcases hma : s.ml_algo with _ | algo
      · rw [hma] at hM
        cases hM
        exact kind_with_in_features s _
      · rw [hma] at hM
        dsimp only at hM
        by_cases haf : algo.is_fitted = true
        · rw [if_pos haf] at hM
          by_cases hfe : algo.features = (s.iter_after_pipeline E tv).features
          · rw [if_pos hfe] at hM
            cases hM
            exact kind_with_in_features s _
          · rw [if_neg hfe] at hM
            cases hM
        · rw [if_neg haf] at hM
          cases hM
          exact (kind_with_ml_algo _ _).trans (kind_with_in_features s _)
    rcases hie : ap.1.imp_estimator with _ | est
    · exact hk1
    · exact (kind_with_imp_estimator ap.1 _).trans hk1

/-- Re-applying an already-applied child sequence to any iterator succeeds and
returns the same (fitted) children: each child is now fitted, so
`apply_selector` skips its `fit` and only narrows the iterator again. -/
theorem apply_all_refit (E : Externals) :
    (cs cs2 : SelList) → (tv tv2 tvb : TVIterator) →
    SelList.apply_all E cs tv = .ok (cs2, tv2) →
    ∃ tv3, SelList.apply_all E cs2 tvb = .ok (cs2, tv3)
  | .nil, cs2, tv, tv2, tvb, h => by
    cases h
    exact ⟨tvb, rfl⟩
  | .cons c rest, cs2, tv, tv2, tvb, h => by
    rw [apply_all_cons] at h
    obtain ⟨c2, hc2, h1⟩ := except_bind_eq_ok h
    obtain ⟨sel, hsel, h2⟩ := except_bind_eq_ok h1
    obtain ⟨r, hr, h3⟩ := except_bind_eq_ok h2
    obtain ⟨r1, r2⟩ := r
    cases h3
    have hfit : c2.is_fitted = true := is_fitted_of_selected_ok hsel
    obtain ⟨tv3, hrec⟩ := apply_all_refit E rest r1 ⟨sel⟩ r2 ⟨sel⟩ hr
    refine ⟨tv3, ?_⟩
    rw [apply_all_cons, if_pos hfit, except_bind_ok, hsel, except_bind_ok, hrec,
      except_bind_ok]

/-- `SelectionPipeline.fit` is guarded: on a fitted selector it is a no-op. -/
theorem base_fit_fitted (E : Externals) (s : Selector) (tv : TVIterator)
    (h : s.is_fitted = true) : SelectionPipeline.fit E s tv = .ok s := by
  unfold SelectionPipeline.fit
  rw [if_pos h]

/-- Idempotence of `fit` for the classes that inherit the guarded base
`fit`. -/
theorem fit_idem_not_composed (E : Externals) (s s2 : Selector) (tv : TVIterator)
    (h : Selector.fit E s tv = .ok s2) (hk : s.kind.not_composed = true) :
    Selector.fit E s2 tv = .ok s2 := by
  rw [fit_dispatch_not_composed E s tv hk] at h
  obtain ⟨hfit2, hkind2, _⟩ := base_fit_ok_shape E s s2 tv h
  rw [fit_dispatch_not_composed E s2 tv (by rw [hkind2]; exact hk)]
  exact base_fit_fitted E s2 tv hfit2

/-- C3: for every selector (`ComposedSelector` included), a second `fit` after
a successful one succeeds and leaves the whole selector state (in particular
`selected_features` and `in_features`) exactly as after the first `fit`. -/
theorem C3_fit_idempotent (E : Externals) (s s2 : Selector) (tv : TVIterator)
    (h : Selector.fit E s tv = .ok s2) :
    Selector.fit E s2 tv = .ok s2 := by
  cases s with
  | mk fp fh ma ie sf inf mi k =>
    cases k with
    | base => exact fit_idem_not_composed E _ s2 tv h rfl
    | empty => exact fit_idem_not_composed E _ s2 tv h rfl
    | predefined cols => exact fit_idem_not_composed E _ s2 tv h rfl
    | composed cs =>
      rw [composed_fit_eq] at h
      obtain ⟨r, hr, h1⟩ := except_bind_eq_ok h
      obtain ⟨r1, r2⟩ := r
      dsimp only at h1
      rcases hh : SelList.head? r1 with _ | c0
      · rw [hh] at h1
        cases h1
      · rw [hh] at h1
        dsimp only at h1
        obtain ⟨inf0, hin, h2⟩ := except_bind_eq_ok h1
        obtain ⟨sel, hps, h3⟩ := except_bind_eq_ok h2
        cases h3
        rw [composed_fit_eq]
        obtain ⟨tv3, h4⟩ := apply_all_refit E cs r1 tv r2 tv hr
        rw [h4, except_bind_ok]
        dsimp only
        rw [hh]
        dsimp only
        rw [hin, except_bind_ok]
        simp only [Selector.perform_selection, Selector.kind] at hps ⊢
        rcases hl : SelList.getLast? r1 with _ | cl
        · rw [hl] at hps
          cases hps
        · rw [hl] at hps
          dsimp only at hps ⊢
          rw [hps, except_bind_ok]

/-- Reading back an assigned `mapped_importances`. -/
theorem mapped_importances_with (s : Selector) (v : Option Importances) :
    (s.with_mapped_importances v).mapped_importances = v := by cases s; rfl

/-- C2: after a successful `ComposedSelector.fit` over children `S1 ... Sn`,
`_in_features` is the first child's `in_features`, `_selected_features` is the
last child's `selected_features`, and `get_features_score()` returns exactly
the last child's `mapped_importances` (no aggregation over children). -/
theorem C2_composed_delegates (E : Externals) (cs : SelList) (tv : TVIterator)
    (s2 : Selector)
    (h : Selector.fit E (ComposedSelector.new cs) tv = .ok s2) :
    ∃ cs2 tv2 c0 cl,
      SelList.apply_all E cs tv = .ok (cs2, tv2) ∧
      s2.kind = .composed cs2 ∧
      SelList.head? cs2 = some c0 ∧
      SelList.getLast? cs2 = some cl ∧
      s2._in_features = c0._in_features ∧
      s2._selected_features = cl._selected_features ∧
      s2.get_features_score = .ok cl.mapped_importances := by
  rw [show ComposedSelector.new cs =
    Selector.mk none false none none none none none (.composed cs) from rfl] at h
  rw [composed_fit_eq] at h
  obtain ⟨r, hr, h1⟩ := except_bind_eq_ok h
  obtain ⟨r1, r2⟩ := r
  dsimp only at h1
  rcases hh : SelList.head? r1 with _ | c0
  · rw [hh] at h1
    cases h1
  · rw [hh] at h1
    dsimp only at h1
    obtain ⟨inf0, hin, h2⟩ := except_bind_eq_ok h1
    obtain ⟨sel, hps, h3⟩ := except_bind_eq_ok h2
    cases h3
    simp only [Selector.perform_selection, Selector.kind] at hps
    rcases hl : SelList.getLast? r1 with _ | cl
    · rw [hl] at hps
      cases hps
    · rw [hl] at hps
      dsimp only at hps
      refine ⟨r1, r2, c0, cl, hr, rfl, hh, hl, ?_, ?_, ?_⟩
      · rw [in_features_ok hin]
        rfl
      · rw [selected_features_ok hps]
        rfl
      · simp only [Selector.get_features_score, Selector.kind, hl]

/-- The fitted `EmptySelector` produced by fitting on features `[a, b]`. -/
def emptyFitAB : Selector :=
  .mk none false none none (some ["a", "b"]) (some ["a", "b"]) none .empty

/-- The result of fitting `ComposedSelector` over a single `EmptySelector` on
features `[a, b]`. -/
def composedFitAB : Selector :=
  .mk none false none none (some ["a", "b"]) (some ["a", "b"]) none
    (.composed (.cons emptyFitAB .nil))

/-- Witness for C2: a composed selector over one `EmptySelector`, fitted on
features `[a, b]`. -/
theorem C2_composed_delegates_witness :
    ∃ cs2 tv2 c0 cl,
      SelList.apply_all E0 (.cons EmptySelector.new .nil)
        (TVIterator.mk ["a", "b"]) = .ok (cs2, tv2) ∧
      composedFitAB.kind = .composed cs2 ∧
      SelList.head? cs2 = some c0 ∧
      SelList.getLast? cs2 = some cl ∧
      composedFitAB._in_features = c0._in_features ∧
      composedFitAB._selected_features = cl._selected_features ∧
      composedFitAB.get_features_score = .ok cl.mapped_importances :=
  C2_composed_delegates E0 (.cons EmptySelector.new .nil)
    (TVIterator.mk ["a", "b"]) composedFitAB rfl

/-- The keys of `groupby_sum` are the distinct input keys. -/
theorem groupby_sum_keys (l : Importances) :
    (groupby_sum l).map Prod.fst = (l.map Prod.fst).dedup := by
  unfold groupby_sum
  rw [List.map_map]
  exact List.map_id _

/-- Every entry of `groupby_sum` carries the sum of the scores grouped under
its key. -/
theorem groupby_sum_val {l : Importances} {p : String × ℚ} (hp : p ∈ groupby_sum l) :
    p.2 = ((l.filter (fun q => decide (q.1 = p.1))).map Prod.snd).sum := by
  unfold groupby_sum at hp
  obtain ⟨k, hk, he⟩ := List.mem_map.mp hp
  cases he
  rfl

/-- Sorting permutes, so no entry is gained or lost. -/
theorem sort_values_desc_perm (l : Importances) :
    List.Perm (sort_values_desc l) l :=
  List.perm_insertionSort score_ge l

/-- The sort really is descending by score. -/
theorem sort_values_desc_sorted (l : Importances) :
    (sort_values_desc l).Pairwise score_ge :=
  List.sorted_insertionSort score_ge l

/-- C5: a successful `map_raw_feature_importances` stores a table keyed by the
mapped (input) feature names, without duplicate keys, where each entry's score
is the sum of the raw scores of all output features mapping to that key, and
the table is sorted by score in descending order. -/
theorem C5_mapped_importances_sum_sorted (E : Externals) (s s2 : Selector)
    (raw : Importances)
    (h : Selector.map_raw_feature_importances E s raw = .ok s2) :
    ∃ inf t,
      s.in_features = .ok inf ∧
      s2.mapped_importances = some t ∧
      (∀ k, k ∈ t.map Prod.fst ↔
        k ∈ ((E.map_pipeline_names inf (raw.map Prod.fst)).zip
          (raw.map Prod.snd)).map Prod.fst) ∧
      (t.map Prod.fst).Nodup ∧
      (∀ p ∈ t, p.2 =
        ((((E.map_pipeline_names inf (raw.map Prod.fst)).zip
          (raw.map Prod.snd)).filter (fun q => decide (q.1 = p.1))).map Prod.snd).sum) ∧
      t.Pairwise score_ge := by
  unfold Selector.map_raw_feature_importances at h
  obtain ⟨inf, hin, h1⟩ := except_bind_eq_ok h
  cases h1
  refine ⟨inf,
    sort_values_desc (groupby_sum ((E.map_pipeline_names inf (raw.map Prod.fst)).zip
      (raw.map Prod.snd))),
    hin, mapped_importances_with _ _, ?_, ?_, ?_, ?_⟩
  · intro k
    rw [((sort_values_desc_perm _).map Prod.fst).mem_iff, groupby_sum_keys,
      List.mem_dedup]
  · rw [((sort_values_desc_perm _).map Prod.fst).nodup_iff, groupby_sum_keys]
    exact List.nodup_dedup _
  · intro p hp
    exact groupby_sum_val ((sort_values_desc_perm _).mem_iff.mp hp)
  · exact sort_values_desc_sorted _

/-- The selector `selF` after mapping the raw scores of the C5 example. -/
def selFMapped : Selector :=
  .mk none false none none (some ["f"]) (some ["f"]) (some [("f", 4)]) .base

/-- Witness for C5: raw scores `f_derived1 = 3`, `f_derived2 = 1`, both mapped
to input feature `f`, yield the stored table `[(f, 4)]`. -/
theorem C5_mapped_importances_sum_sorted_witness :
    ∃ inf t,
      Selector.in_features selF = .ok inf ∧
      selFMapped.mapped_importances = some t ∧
      (∀ k, k ∈ t.map Prod.fst ↔
        k ∈ ((E1.map_pipeline_names inf
          ([("f_derived1", (3 : ℚ)), ("f_derived2", 1)].map Prod.fst)).zip
          ([("f_derived1", (3 : ℚ)), ("f_derived2", 1)].map Prod.snd)).map Prod.fst) ∧
      (t.map Prod.fst).Nodup ∧
      (∀ p ∈ t, p.2 =
        ((((E1.map_pipeline_names inf
          ([("f_derived1", (3 : ℚ)), ("f_derived2", 1)].map Prod.fst)).zip
          ([("f_derived1", (3 : ℚ)), ("f_derived2", 1)].map Prod.snd)).filter
            (fun q => decide (q.1 = p.1))).map Prod.snd).sum) ∧
      t.Pairwise score_ge :=
  C5_mapped_importances_sum_sorted E1 selF selFMapped
    [("f_derived1", 3), ("f_derived2", 1)]
    (by show Except.ok (Selector.mk none false none none (some ["f"]) (some ["f"])
          (some [("f", 3 + (1 + 0))]) .base) = Except.ok selFMapped
        rw [show (3 : ℚ) + (1 + 0) = 4 by norm_num]
        rfl)

/-- Witness for C3: fitting a fresh `EmptySelector` twice on the same iterator
returns the same fitted selector both times. -/
theorem C3_fit_idempotent_witness :
    Selector.fit E0 EmptySelector.new (TVIterator.mk ["a", "b"]) = .ok emptyFitAB ∧
    Selector.fit E0 emptyFitAB (TVIterator.mk ["a", "b"]) = .ok emptyFitAB :=
  ⟨rfl, C3_fit_idempotent E0 EmptySelector.new emptyFitAB
    (TVIterator.mk ["a", "b"]) rfl⟩
